import Mathlib

/-!
# FastSM core — shallow embedding and verification

This file embeds the core data model and operations of the FastSM multi-platform
client (Python) into Lean 4 and proves properties about them.

Modelling conventions, used uniformly below:

* Python `None`-able attributes are `Option` values.  An attribute that is absent
  from a payload, or present with value `None`, is `none`; `get_attr(obj, name,
  default)` (src/platforms/bluesky/models.py) — which tries the snake_case and
  camelCase spellings and falls back to the default when the attribute is missing
  or `None` — is embedded as `field.getD default`, with the two spellings of each
  attribute collapsed into a single field of the payload structure.
* Python string truthiness (`if s:`) on an optional string is `pyTruthy`.
* Exceptions are embedded with `Except`: the outcome of a backend call is an
  input of type `Except E A`; a method body without `try/except` propagates the
  `.error` case to its own result, a `try/except` clause maps it to the handler's
  result.  Calls to the shared error reporter `app.handle_error(err, label)` are
  collected in an output list of `ErrorReport`.
* `datetime` values are embedded abstractly by `PyDatetime`: a successfully
  parsed string `s` becomes `.parsed s` and `datetime.now()` becomes `.now`
  (the character-level massaging done by `parse_bluesky_datetime` before calling
  `fromisoformat`, and parse failures — which also yield `now` — are abstracted,
  since no property below depends on datetime string validity).
* Mutation of `self` state (the Bluesky cursor dictionary, the user-cache list)
  is embedded as explicit state passing: each operation takes the state and
  returns the updated state.
-/

namespace FastSM

/-! ## Python string primitives -/

/-- Python `name.lstrip('@')`: remove every leading `'@'`.  (The string
helpers below work on the character list so that they evaluate inside the
kernel.) -/
def pyLstripAt (s : String) : String := String.mk (s.toList.dropWhile (fun c => c = '@'))

/-- Python `s.split('@')[0]`: the prefix of `s` before the first `'@'`
(the whole of `s` when there is none). -/
def localPart (s : String) : String := String.mk (s.toList.takeWhile (fun c => c ≠ '@'))

/-- Python `s.split('.')[0]`: the prefix of `s` before the first `'.'`. -/
def localDot (s : String) : String := String.mk (s.toList.takeWhile (fun c => c ≠ '.'))

/-- Python `s.lower()` (over the ASCII range, which is all the code compares). -/
def pyLower (s : String) : String := String.mk (s.toList.map Char.toLower)

/-- Python `needle in haystack` substring test. -/
def strContains (haystack needle : String) : Bool :=
  decide (needle.toList <:+: haystack.toList)

/-- Python truthiness of an optional string: `None` and `''` are falsy. -/
def pyTruthy : Option String → Bool
  | none => false
  | some s => s != ""

/-- Abstract embedding of Python `datetime` values (see the header comment). -/
inductive PyDatetime where
  | parsed (s : String)
  | now
deriving DecidableEq, Repr

/-- `parse_bluesky_datetime` (src/platforms/bluesky/models.py:163): an empty
string yields `datetime.now()`, otherwise the string is parsed. -/
def parse_bluesky_datetime (s : String) : PyDatetime :=
  if s = "" then .now else .parsed s

section Payloads

/-! ## Bluesky backend payloads

Typed shapes for the (duck-typed) AT-Protocol objects that the conversion
functions in src/platforms/bluesky/models.py read.  Every field an embedded
function reads through `get_attr`/`getattr` is an `Option` field here, so that
arbitrarily partial payloads are expressible. -/

/-- The attributes of a Bluesky profile object read by
`bluesky_profile_to_universal`. -/
structure ProfilePayload where
  did : Option String
  handle : Option String
  displayName : Option String
  description : Option String
  avatar : Option String
  banner : Option String
  followersCount : Option Nat
  followsCount : Option Nat
  postsCount : Option Nat
deriving DecidableEq, Repr

/-- A profile payload with every attribute absent. -/
def ProfilePayload.empty : ProfilePayload :=
  ⟨none, none, none, none, none, none, none, none, none⟩

/-- The `reply.parent` reference inside a post record. -/
structure ParentRefPayload where
  uri : Option String
deriving DecidableEq, Repr

/-- The `reply` reference inside a post record. -/
structure ReplyRefPayload where
  parent : Option ParentRefPayload
deriving DecidableEq, Repr

/-- One entry of `record.labels.values`. -/
structure SelfLabelPayload where
  val : Option String
deriving DecidableEq, Repr

/-- The `record.labels` self-label set. -/
structure SelfLabelsPayload where
  values : Option (List SelfLabelPayload)
deriving DecidableEq, Repr

/-- One feature of a facet; `ftype` models the feature's type tag
(`$type` / `py_type`, which `extract_mentions_from_facets` reads). -/
structure FeaturePayload where
  ftype : String
  did : Option String
deriving DecidableEq, Repr

/-- One facet of a post record. -/
structure FacetPayload where
  features : Option (List FeaturePayload)
deriving DecidableEq, Repr

/-- The attributes of a post record object read by the conversion. -/
structure RecordPayload where
  text : Option String
  createdAt : Option String
  reply : Option ReplyRefPayload
  facets : Option (List FacetPayload)
  labels : Option SelfLabelsPayload
deriving DecidableEq, Repr

/-- One image of an images embed. -/
structure ImagePayload where
  cid : Option String
  fullsize : Option String
  thumb : Option String
  alt : Option String
deriving DecidableEq, Repr

/-- A repost `reason` wrapper.  `rtype` models the reason's type tag: the
code probes `py_type`, `$type` and the Python class name, all of which are
strings; they are collapsed into this one field.  `by_` is the source's
`reason.by` (`by` is reserved in Lean). -/
structure ReasonPayload where
  rtype : String
  by_ : Option ProfilePayload
  indexedAt : Option String
deriving DecidableEq, Repr

mutual
/-- A Bluesky feed item / post view / record, as read by
`bluesky_post_to_universal`.  A `FeedViewPost` carries the inner view in
`post` and possibly a repost `reason`; a plain `PostView` has `post = none`. -/
inductive PostPayload where
  | mk
    (post : Option PostPayload)
    (reason : Option ReasonPayload)
    (record : Option RecordPayload)
    (uri : Option String)
    (cid : Option String)
    (text : Option String)
    (author : Option ProfilePayload)
    (likeCount : Option Nat)
    (repostCount : Option Nat)
    (replyCount : Option Nat)
    (indexedAt : Option String)
    (embed : Option EmbedPayload)

/-- A post embed, as read by `extract_media_from_embed` and the quote
extraction.  `etype` models the embed's type tag (`$type` / `py_type`). -/
inductive EmbedPayload where
  | mk
    (etype : String)
    (images : Option (List ImagePayload))
    (cid : Option String)
    (playlist : Option String)
    (url : Option String)
    (thumbnail : Option String)
    (alt : Option String)
    (media : Option EmbedPayload)
    (record : Option PostPayload)
end

def PostPayload.post : PostPayload → Option PostPayload
  | .mk p _ _ _ _ _ _ _ _ _ _ _ => p

def PostPayload.reason : PostPayload → Option ReasonPayload
  | .mk _ r _ _ _ _ _ _ _ _ _ _ => r

def PostPayload.record : PostPayload → Option RecordPayload
  | .mk _ _ r _ _ _ _ _ _ _ _ _ => r

def PostPayload.uri : PostPayload → Option String
  | .mk _ _ _ u _ _ _ _ _ _ _ _ => u

def PostPayload.cid : PostPayload → Option String
  | .mk _ _ _ _ c _ _ _ _ _ _ _ => c

def PostPayload.text : PostPayload → Option String
  | .mk _ _ _ _ _ t _ _ _ _ _ _ => t

def PostPayload.author : PostPayload → Option ProfilePayload
  | .mk _ _ _ _ _ _ a _ _ _ _ _ => a

def PostPayload.likeCount : PostPayload → Option Nat
  | .mk _ _ _ _ _ _ _ l _ _ _ _ => l

def PostPayload.repostCount : PostPayload → Option Nat
  | .mk _ _ _ _ _ _ _ _ r _ _ _ => r

def PostPayload.replyCount : PostPayload → Option Nat
  | .mk _ _ _ _ _ _ _ _ _ r _ _ => r

def PostPayload.indexedAt : PostPayload → Option String
  | .mk _ _ _ _ _ _ _ _ _ _ i _ => i

def PostPayload.embed : PostPayload → Option EmbedPayload
  | .mk _ _ _ _ _ _ _ _ _ _ _ e => e

def EmbedPayload.etype : EmbedPayload → String
  | .mk t _ _ _ _ _ _ _ _ => t

def EmbedPayload.images : EmbedPayload → Option (List ImagePayload)
  | .mk _ i _ _ _ _ _ _ _ => i

def EmbedPayload.cid : EmbedPayload → Option String
  | .mk _ _ c _ _ _ _ _ _ => c

def EmbedPayload.playlist : EmbedPayload → Option String
  | .mk _ _ _ p _ _ _ _ _ => p

def EmbedPayload.url : EmbedPayload → Option String
  | .mk _ _ _ _ u _ _ _ _ => u

def EmbedPayload.thumbnail : EmbedPayload → Option String
  | .mk _ _ _ _ _ t _ _ _ => t

def EmbedPayload.alt : EmbedPayload → Option String
  | .mk _ _ _ _ _ _ a _ _ => a

def EmbedPayload.media : EmbedPayload → Option EmbedPayload
  | .mk _ _ _ _ _ _ _ m _ => m

def EmbedPayload.record : EmbedPayload → Option PostPayload
  | .mk _ _ _ _ _ _ _ _ r => r

/-- A post payload with every attribute absent. -/
def PostPayload.empty : PostPayload :=
  .mk none none none none none none none none none none none none

end Payloads

section UniversalModel

/-! ## Universal model

`UniversalUser` is embedded from the dataclass in src/models/user.py.
`UniversalStatus`, `UniversalMedia` and `UniversalMention` live in
src/models/status.py, which is not among the provided sources; they are
modelled from the spec's data-model section (§3) together with the keyword
constructor calls visible in src/platforms/bluesky/models.py, which fix the
exact field list.  The dynamic `_platform_data : Any` escape hatch is typed
here as the payload kind each embedded code path actually stores. -/

/-- src/models/user.py `UniversalUser` (the `_platform_data`/`_platform`
fields are `platform_data`/`platform` here). -/
structure UniversalUser where
  id : String
  acct : String
  username : String
  display_name : String
  note : String
  avatar : Option String
  header : Option String
  followers_count : Nat
  following_count : Nat
  statuses_count : Nat
  created_at : Option PyDatetime
  url : Option String
  bot : Bool
  locked : Bool
  platform_data : Option ProfilePayload
  platform : String
deriving DecidableEq, Repr

/-- Modelled from the spec (§3): `UniversalMedia` — src/models/status.py is
not among the provided sources.  Fields as in the spec and as passed by
`bluesky_media_to_universal`; the opaque media payload is dropped (no
property reads it). -/
structure UniversalMedia where
  id : String
  type : String
  url : String
  preview_url : Option String
  description : Option String
deriving DecidableEq, Repr

/-- Modelled from the spec (§3): `UniversalMention` — src/models/status.py is
not among the provided sources. -/
structure UniversalMention where
  id : String
  acct : String
  username : String
  url : Option String
deriving DecidableEq, Repr

/-- Modelled from the spec (§3): `UniversalStatus` — src/models/status.py is
not among the provided sources; the field list and order are exactly the
keyword arguments of the constructor calls in
src/platforms/bluesky/models.py (lines 274-295 and 386-407).  It is an
inductive type because `reblog` and `quote` are self-references.  `card` and
`poll` are only ever passed `None` by the embedded code, so their payload
type is irrelevant; they are typed `Option String`. -/
inductive UniversalStatus where
  | mk
    (id : String)
    (account : Option UniversalUser)
    (content : String)
    (text : String)
    (created_at : PyDatetime)
    (favourites_count : Nat)
    (boosts_count : Nat)
    (replies_count : Nat)
    (in_reply_to_id : Option String)
    (reblog : Option UniversalStatus)
    (quote : Option UniversalStatus)
    (media_attachments : List UniversalMedia)
    (mentions : List UniversalMention)
    (url : Option String)
    (visibility : Option String)
    (spoiler_text : Option String)
    (card : Option String)
    (poll : Option String)
    (platform_data : Option PostPayload)
    (platform : String)

def UniversalStatus.id : UniversalStatus → String
  | .mk i _ _ _ _ _ _ _ _ _ _ _ _ _ _ _ _ _ _ _ => i

def UniversalStatus.account : UniversalStatus → Option UniversalUser
  | .mk _ a _ _ _ _ _ _ _ _ _ _ _ _ _ _ _ _ _ _ => a

def UniversalStatus.content : UniversalStatus → String
  | .mk _ _ c _ _ _ _ _ _ _ _ _ _ _ _ _ _ _ _ _ => c

def UniversalStatus.text : UniversalStatus → String
  | .mk _ _ _ t _ _ _ _ _ _ _ _ _ _ _ _ _ _ _ _ => t

def UniversalStatus.created_at : UniversalStatus → PyDatetime
  | .mk _ _ _ _ c _ _ _ _ _ _ _ _ _ _ _ _ _ _ _ => c

def UniversalStatus.favourites_count : UniversalStatus → Nat
  | .mk _ _ _ _ _ f _ _ _ _ _ _ _ _ _ _ _ _ _ _ => f

def UniversalStatus.boosts_count : UniversalStatus → Nat
  | .mk _ _ _ _ _ _ b _ _ _ _ _ _ _ _ _ _ _ _ _ => b

def UniversalStatus.replies_count : UniversalStatus → Nat
  | .mk _ _ _ _ _ _ _ r _ _ _ _ _ _ _ _ _ _ _ _ => r

def UniversalStatus.in_reply_to_id : UniversalStatus → Option String
  | .mk _ _ _ _ _ _ _ _ i _ _ _ _ _ _ _ _ _ _ _ => i

def UniversalStatus.reblog : UniversalStatus → Option UniversalStatus
  | .mk _ _ _ _ _ _ _ _ _ r _ _ _ _ _ _ _ _ _ _ => r

def UniversalStatus.quote : UniversalStatus → Option UniversalStatus
  | .mk _ _ _ _ _ _ _ _ _ _ q _ _ _ _ _ _ _ _ _ => q

def UniversalStatus.media_attachments : UniversalStatus → List UniversalMedia
  | .mk _ _ _ _ _ _ _ _ _ _ _ m _ _ _ _ _ _ _ _ => m

def UniversalStatus.mentions : UniversalStatus → List UniversalMention
  | .mk _ _ _ _ _ _ _ _ _ _ _ _ m _ _ _ _ _ _ _ => m

def UniversalStatus.url : UniversalStatus → Option String
  | .mk _ _ _ _ _ _ _ _ _ _ _ _ _ u _ _ _ _ _ _ => u

def UniversalStatus.visibility : UniversalStatus → Option String
  | .mk _ _ _ _ _ _ _ _ _ _ _ _ _ _ v _ _ _ _ _ => v

def UniversalStatus.spoiler_text : UniversalStatus → Option String
  | .mk _ _ _ _ _ _ _ _ _ _ _ _ _ _ _ s _ _ _ _ => s

def UniversalStatus.card : UniversalStatus → Option String
  | .mk _ _ _ _ _ _ _ _ _ _ _ _ _ _ _ _ c _ _ _ => c

def UniversalStatus.poll : UniversalStatus → Option String
  | .mk _ _ _ _ _ _ _ _ _ _ _ _ _ _ _ _ _ p _ _ => p

def UniversalStatus.platform_data : UniversalStatus → Option PostPayload
  | .mk _ _ _ _ _ _ _ _ _ _ _ _ _ _ _ _ _ _ d _ => d

def UniversalStatus.platform : UniversalStatus → String
  | .mk _ _ _ _ _ _ _ _ _ _ _ _ _ _ _ _ _ _ _ p => p

/-- src/models/notification.py `UniversalNotification`. -/
structure UniversalNotification where
  id : String
  type : String
  account : Option UniversalUser
  created_at : PyDatetime
  status : Option UniversalStatus
  platform : String

end UniversalModel

section BlueskyConversion

/-! ## Bluesky conversion functions (src/platforms/bluesky/models.py) -/

/-- `extract_rkey_from_uri` (line 15): the last `/`-separated component of the
URI (Python `split` never returns an empty list, so `parts[-1]` applies). -/
def extract_rkey_from_uri (uri : String) : String :=
  if uri = "" then ""
  else ((uri.splitOn "/").getLast?).getD uri

/-- `get_web_url` (line 26). -/
def get_web_url (handle rkey : String) : String :=
  "https://bsky.app/profile/" ++ handle ++ "/post/" ++ rkey

/-- Models Python `str(hash(...))` in `bluesky_media_to_universal`: the exact
value is irrelevant to every property below, so any fixed function of the
input is an adequate embedding. -/
def pyHashStr (s : String) : String := "hash:" ++ s

/-- `bluesky_profile_to_universal` (line 66) on a non-`None` profile.  The
`platform_data` parameter of the source is never passed at any call site, so
the stored payload is always the profile itself. -/
def bluesky_profile_to_universal_core (profile : ProfilePayload) : UniversalUser :=
  let did := profile.did.getD ""
  let handle := profile.handle.getD ""
  { id := did
  , acct := handle
  , username := if strContains handle "." then localDot handle else handle
  , display_name := (let d := profile.displayName.getD ""; if d ≠ "" then d else handle)
  , note := profile.description.getD ""
  , avatar := profile.avatar
  , header := profile.banner
  , followers_count := profile.followersCount.getD 0
  , following_count := profile.followsCount.getD 0
  , statuses_count := profile.postsCount.getD 0
  , created_at := none
  , url := some ("https://bsky.app/profile/" ++ handle)
  , bot := false
  , locked := false
  , platform_data := some profile
  , platform := "bluesky" }

/-- `bluesky_profile_to_universal` (line 66): `None` in, `None` out. -/
def bluesky_profile_to_universal : Option ProfilePayload → Option UniversalUser
  | none => none
  | some p => some (bluesky_profile_to_universal_core p)

/-- `bluesky_media_to_universal` (line 94). -/
def bluesky_media_to_universal (img : ImagePayload) : UniversalMedia :=
  { id := (let c := img.cid.getD ""; if c ≠ "" then c else pyHashStr (img.fullsize.getD ""))
  , type := "image"
  , url := img.fullsize.getD ""
  , preview_url := img.thumb
  , description := img.alt }

/-- `extract_mentions_from_facets` (line 106): one mention per facet feature
whose type tag contains `mention` (case-insensitively). -/
def extract_mentions_from_facets (facets : Option (List FacetPayload)) : List UniversalMention :=
  match facets with
  | none => []
  | some fs =>
    (fs.map (fun facet =>
      (facet.features.getD []).filterMap (fun feature =>
        if strContains (pyLower feature.ftype) "mention" then
          some { id := feature.did.getD ""
               , acct := feature.did.getD ""
               , username := feature.did.getD ""
               , url := none }
        else none))).flatten

/-- `extract_media_from_embed` (line 129) on a non-`None` embed.  Note the
`recordWithMedia` branch of the source tests a needle containing upper-case
letters against a lowered haystack, so it can never fire; it is embedded
verbatim. -/
def extract_media_core : EmbedPayload → List UniversalMedia
  | .mk etype images cid playlist url thumbnail alt media _record =>
    let t := pyLower etype
    if strContains t "images" then
      (images.getD []).map bluesky_media_to_universal
    else if strContains t "video" then
      [{ id := cid.getD ""
       , type := "video"
       , url := (let p := playlist.getD ""; if p ≠ "" then p else url.getD "")
       , preview_url := thumbnail
       , description := alt }]
    else if strContains t "recordWithMedia" then
      match media with
      | some m => extract_media_core m
      | none => []
    else []

/-- `extract_media_from_embed` (line 129): falsy (absent) embed gives `[]`. -/
def extract_media_from_embed : Option EmbedPayload → List UniversalMedia
  | none => []
  | some e => extract_media_core e

/-- The repost dispatch of `bluesky_post_to_universal` (lines 206-209): the
source probes `py_type`, `$type` and the Python class name — all strings,
collapsed into `rtype` — for the substring `repost`/`Repost`/`ReasonRepost`;
one lowered substring test covers the disjunction. -/
def isRepostReason (r : ReasonPayload) : Bool :=
  strContains (pyLower r.rtype) "repost"

/-- The reposter user synthesized inline by the repost branch of
`bluesky_post_to_universal` (lines 219-266).  When `reason.by` is present the
user carries the reposter's identity with bio/counts defaulted; otherwise a
placeholder user is synthesized (its display name embeds the reason's class
name, modelled by `rtype`). -/
def reposter_user_of (r : ReasonPayload) : UniversalUser :=
  match r.by_ with
  | some reposter =>
    let did := reposter.did.getD ""
    let handle := reposter.handle.getD ""
    let d := reposter.displayName.getD ""
    { id := if did ≠ "" then did else "no_did"
    , acct := if handle ≠ "" then handle else "no_handle"
    , username := if handle ≠ "" ∧ strContains handle "." then localDot handle else "no_user"
    , display_name := if d ≠ "" then d else if handle ≠ "" then handle else "?"
    , note := ""
    , avatar := reposter.avatar
    , header := none
    , followers_count := 0
    , following_count := 0
    , statuses_count := 0
    , created_at := none
    , url := if handle ≠ "" then some ("https://bsky.app/profile/" ++ handle) else none
    , bot := false
    , locked := false
    , platform_data := some reposter
    , platform := "bluesky" }
  | none =>
    { id := "unknown"
    , acct := "unknown"
    , username := "unknown"
    , display_name := "[NO_BY:" ++ r.rtype ++ "]"
    , note := ""
    , avatar := none
    , header := none
    , followers_count := 0
    , following_count := 0
    , statuses_count := 0
    , created_at := none
    , url := none
    , bot := false
    , locked := false
    , platform_data := none
    , platform := "bluesky" }

/-- The `text` extraction of `bluesky_post_to_universal` (lines 311-313):
the record's text, defaulting to empty. -/
def record_text : Option RecordPayload → String
  | some rec0 => rec0.text.getD ""
  | none => ""

/-- Lines 311-315: record text, falling back to the post's own `text`
attribute when empty. -/
def view_text (record : Option RecordPayload) (qtext : Option String) : String :=
  let t := record_text record
  if t = "" then qtext.getD "" else t

/-- Lines 333-335: the record's `created_at` string, defaulting to empty. -/
def record_created_at : Option RecordPayload → String
  | some rec0 => rec0.createdAt.getD ""
  | none => ""

/-- Lines 333-337: the record's timestamp string, falling back to the
post's `indexed_at`. -/
def view_created_at_string (record : Option RecordPayload) (ia : Option String) : String :=
  let s := record_created_at record
  if s = "" then ia.getD "" else s

/-- Lines 341-347: the reply-parent URI chain `record.reply.parent.uri`,
each step guarded. -/
def reply_parent_uri : Option RecordPayload → Option String
  | some rec0 =>
    (match rec0.reply with
     | some rep =>
       (match rep.parent with
        | some par => par.uri
        | none => none)
     | none => none)
  | none => none

/-- Lines 364-367: mentions from the record's facets. -/
def record_mentions : Option RecordPayload → List UniversalMention
  | some rec0 => extract_mentions_from_facets rec0.facets
  | none => []

/-- Line 318: `post_author = get_attr(post, 'author', None) or author`. -/
def author_or (author0 author : Option ProfilePayload) : Option ProfilePayload :=
  match author0 with
  | some a => some a
  | none => author

theorem author_or_none (a : Option ProfilePayload) : author_or a none = a := by
  cases a <;> rfl

/-- Line 370: the author's handle, or empty when the author is absent. -/
def author_handle : Option ProfilePayload → String
  | some a => a.handle.getD ""
  | none => ""

/-- Lines 354-360: the quoted record of an embed whose type tag contains
`record` (case-insensitively). -/
def quoted_record_of : Option EmbedPayload → Option PostPayload
  | some (.mk etype2 _ _ _ _ _ _ _ record2) =>
    if strContains (pyLower etype2) "record" then record2 else none
  | none => none

/-- The quoted record sits inside the embed, hence is smaller (used for
termination of the quote recursion). -/
theorem sizeOf_quoted_record_of (embed : Option EmbedPayload) (qr : PostPayload)
    (h : quoted_record_of embed = some qr) : sizeOf qr < sizeOf embed := by
  cases embed with
  | none => simp [quoted_record_of] at h
  | some e =>
    cases e with
    | mk etype2 images cid playlist url thumbnail alt media record2 =>
      simp only [quoted_record_of] at h
      split at h
      · cases record2 with
        | none => exact absurd h (by simp)
        | some qr2 =>
          cases h
          simp
          omega
      · exact absurd h (by simp)

mutual

/-- `bluesky_post_to_universal` (line 184) on a non-`None` post: detect a
repost wrapper (non-`None` `reason` of repost type with an inner post),
otherwise unwrap a `FeedViewPost` to its inner `PostView` and convert that.
The `platform_data` parameter of the source is never passed at any call site;
the repost branch stores the wrapper, the normal path the unwrapped view.
The `original_author`/`original_did` locals of the source (lines 215-216) are
computed but never used and are omitted. -/
def bluesky_post_to_universal_core : PostPayload → Option ProfilePayload → UniversalStatus
  | p@(.mk innerPost reason _ _ _ _ _ _ _ _ _ _), author =>
    match innerPost, reason with
    | some ip, some r =>
      if isRepostReason r then
        UniversalStatus.mk
          (ip.uri.getD "" ++ ":repost")
          (some (reposter_user_of r))
          "" ""
          (parse_bluesky_datetime (r.indexedAt.getD ""))
          0 0 0 none
          (some (bluesky_post_to_universal_core ip none))
          none [] [] none none none none none
          (some p) "bluesky"
      else bluesky_post_view_to_universal ip author
    | some ip, none => bluesky_post_view_to_universal ip author
    | none, _ => bluesky_post_view_to_universal p author
termination_by p _ => 2 * sizeOf p + 1
decreasing_by all_goals first
  | (simp_wf; subst_vars; simp_all; omega)
  | (simp_wf; subst_vars; simp_all)

/-- The `PostView` part of `bluesky_post_to_universal` (lines 301-407): the
code that runs after the repost check and the `FeedViewPost` unwrap, with
its straight-line attribute reads factored into the named helpers above.
The `labels` local of the source (lines 374-384) is computed but not stored
in the returned status and is omitted. -/
def bluesky_post_view_to_universal : PostPayload → Option ProfilePayload → UniversalStatus
  | q@(.mk _ _ record uri0 _cid0 qtext author0 lc rc pc ia embed), author =>
    let uri := uri0.getD ""
    let rkey := extract_rkey_from_uri uri
    let post_author := author_or author0 author
    let quote := match hq : quoted_record_of embed with
      | some qr => some (bluesky_post_to_universal_core qr qr.author)
      | none => none
    let handle := author_handle post_author
    let web_url := if handle ≠ "" ∧ rkey ≠ "" then some (get_web_url handle rkey) else none
    UniversalStatus.mk
      uri (bluesky_profile_to_universal post_author)
      (view_text record qtext) (view_text record qtext)
      (parse_bluesky_datetime (view_created_at_string record ia))
      (lc.getD 0) (rc.getD 0) (pc.getD 0)
      (reply_parent_uri record)
      none quote
      (extract_media_from_embed embed)
      (record_mentions record) web_url
      none none none none
      (some q) "bluesky"
termination_by q _ => 2 * sizeOf q
decreasing_by
  simp_wf
  have h2 := sizeOf_quoted_record_of _ qr hq
  omega

end

/-- `bluesky_post_to_universal` (line 184): `None` in, `None` out; a
non-`None` post always converts. -/
def bluesky_post_to_universal (post : Option PostPayload)
    (author : Option ProfilePayload) : Option UniversalStatus :=
  match post with
  | none => none
  | some p => some (bluesky_post_to_universal_core p author)

/-- The attributes of a Bluesky notification object read by
`bluesky_notification_to_universal` (src/platforms/bluesky/models.py:410).
`reason` here is the notification's plain string reason. -/
structure NotificationPayload where
  reason : Option String
  author : Option ProfilePayload
  indexedAt : Option String
  record : Option RecordPayload
  uri : Option String
  cid : Option String
deriving DecidableEq, Repr

/-- The `reason_map` dictionary of `bluesky_notification_to_universal`
(lines 416-423) with its `.get(reason, reason)` fallback. -/
def bluesky_reason_map (reason : String) : String :=
  if reason = "like" then "favourite"
  else if reason = "repost" then "reblog"
  else if reason = "follow" then "follow"
  else if reason = "mention" then "mention"
  else if reason = "reply" then "mention"
  else if reason = "quote" then "mention"
  else reason

/-- `bluesky_notification_to_universal` passes the notification object itself
to `bluesky_post_to_universal` (line 448); the notification exposes
`record`/`uri`/`cid`/`author`/`indexed_at` and no inner `.post`.  Its string
`reason` cannot satisfy the repost dispatch (which also needs an inner post),
so it is dropped in this view. -/
def notification_as_post (n : NotificationPayload) : PostPayload :=
  .mk none none n.record n.uri n.cid none n.author none none none n.indexedAt none

/-- `bluesky_notification_to_universal` (line 410).  The `indexed_at`
parsing (lines 434-441: parse, `except` → `now`, absent → `now`) is abstracted
exactly like `parse_bluesky_datetime`. -/
def bluesky_notification_to_universal :
    Option NotificationPayload → Option UniversalNotification
  | none => none
  | some n =>
    let reason := n.reason.getD "unknown"
    some
      { id := n.uri.getD ""
      , type := bluesky_reason_map reason
      , account := bluesky_profile_to_universal n.author
      , created_at := parse_bluesky_datetime (n.indexedAt.getD "")
      , status :=
          if n.record.isSome ∧ (reason = "mention" ∨ reason = "reply" ∨ reason = "quote")
          then bluesky_post_to_universal (some (notification_as_post n)) n.author
          else none
      , platform := "bluesky" }

end BlueskyConversion

section UserCacheModel

/-! ## User cache (src/models/user.py `UserCache`)

The cache state is its `users` list (most recently seen first); the disk
persistence and the `unknown_users` list play no part in the properties
below. -/

/-- The cache bound `MAX_CACHE_SIZE` (src/models/user.py:54). -/
def MAX_CACHE_SIZE : Nat := 500

/-- `UserCache.add_user` (src/models/user.py:97): drop every entry with the
new user's id, insert the new user at the front, trim to the bound.  A `None`
argument leaves the cache unchanged. -/
def add_user (users : List UniversalUser) (user : Option UniversalUser) :
    List UniversalUser :=
  match user with
  | none => users
  | some u =>
    let users := users.filter (fun v => v.id ≠ u.id)
    let users := u :: users
    if users.length > MAX_CACHE_SIZE then users.take MAX_CACHE_SIZE else users

/-- The normalization of `UserCache.lookup_by_name` (src/models/user.py:139):
`name.lstrip('@').lower()`. -/
def normalize_name (name : String) : String := pyLower (pyLstripAt name)

/-- The match predicate of `UserCache.lookup_by_name` (src/models/user.py:142):
the lowered full acct, or the lowered local part of the acct, equals the
normalized name. -/
def acct_matches (nm : String) (u : UniversalUser) : Bool :=
  pyLower u.acct == nm || pyLower (localPart u.acct) == nm

/-- `UserCache.lookup_by_name` (src/models/user.py:137).  Returns the looked-up
user (if any) together with the updated cache contents; `callback` is the
optional `use_api_callback` recovery function. -/
def lookup_by_name (users : List UniversalUser) (name : String)
    (callback : Option (String → Option UniversalUser)) :
    Option UniversalUser × List UniversalUser :=
  let nm := normalize_name name
  match users.find? (acct_matches nm) with
  | some u => (some u, users)
  | none =>
    match callback with
    | some f =>
      match f nm with
      | some u => (some u, add_user users (some u))
      | none => (none, users)
    | none => (none, users)

end UserCacheModel

section Streaming

/-! ## Live-update merger (src/streaming.py) -/

/-- The inner loop of `MastodonStreamListener.on_delete`
(src/streaming.py:85): scan one timeline's statuses in order, pop the first
whose id equals the deleted id, stop (`break`). -/
def delete_first_by_id (x : String) : List UniversalStatus → List UniversalStatus
  | [] => []
  | s :: rest => if s.id = x then rest else s :: delete_first_by_id x rest

/-- `MastodonStreamListener.on_delete` (src/streaming.py:85) over the
account's open timelines (each a `statuses` list); the UI refresh call has no
effect on the buffers. -/
def on_delete (x : String) (timelines : List (List UniversalStatus)) :
    List (List UniversalStatus) :=
  timelines.map (delete_first_by_id x)

end Streaming

section ErrorModel

/-! ## Adapter error handling (claim-relevant methods of both adapters)

The outcome of each backend call is an input of type `Except _ _`; reporter
calls `self.app.handle_error(err, label)` are collected in an `ErrorReport`
list (see the header comment). -/

/-- One call to the shared error reporter: the stringified error or message,
and the operation label. -/
structure ErrorReport where
  message : String
  operation : String
deriving DecidableEq, Repr

/-- A transport/protocol error of the Mastodon backend (`MastodonError`). -/
structure MastodonError where
  msg : String
deriving DecidableEq, Repr

/-- A Bluesky backend exception: `protocolError` covers the transport errors
`AtProtocolError`/`InvokeTimeoutError`; `otherError` any other exception
(e.g. a Pydantic validation error), carrying its `str(e)`. -/
inductive BlueskyError where
  | protocolError (msg : String)
  | otherError (msg : String)
deriving DecidableEq, Repr

end ErrorModel

section MastodonAdapter

/-! ## Mastodon adapter (src/platforms/mastodon/account.py)

The conversion helpers live in src/platforms/mastodon/models.py, which is not
among the provided sources; they are modelled from the spec (§3, §4.1): a
non-null raw status always converts, and the original backend object is
retained as the opaque per-platform payload. -/

/-- A raw Mastodon status as returned by the backend; only its id matters to
the properties below, the whole object is retained as the opaque payload. -/
structure MastodonRawStatus where
  id : String
  content : String
deriving DecidableEq, Repr

/-- Modelled from the spec: the universal status produced by the Mastodon
adapter (src/models/status.py and src/platforms/mastodon/models.py are not
among the provided sources).  Per spec §3/§4.1 it carries the fields set by
the conversion plus the opaque per-platform payload; `notification_id` is the
`_notification_id` side-channel attribute set dynamically by `get_mentions`. -/
structure MastodonUniversalStatus where
  id : String
  content : String
  notification_id : Option String
  platform_data : MastodonRawStatus
  platform : String
deriving DecidableEq, Repr

/-- Modelled from the spec: `mastodon_status_to_universal`
(src/platforms/mastodon/models.py, not among the provided sources).  Per spec
§4.1 conversion never fails for a non-null input and retains the original
backend object as the opaque per-platform payload. -/
def mastodon_status_to_universal (s : MastodonRawStatus) : MastodonUniversalStatus :=
  { id := s.id
  , content := s.content
  , notification_id := none
  , platform_data := s
  , platform := "mastodon" }

/-- A raw Mastodon mention notification as read by `get_mentions`: its id and
its optional embedded status. -/
structure MastodonRawNotification where
  id : String
  status : Option MastodonRawStatus
deriving DecidableEq, Repr

/-- The per-notification loop body of `MastodonAccount.get_mentions`
(src/platforms/mastodon/account.py:87-97): unwrap the embedded status,
convert it, store the notification id in the `_notification_id` side channel,
and overwrite the status id with the notification id.  Notifications without
an embedded status are skipped.  (The user-cache insertion the loop also
performs is the `add_user` operation modelled above.) -/
def mastodon_get_mentions (notifications : List MastodonRawNotification) :
    List MastodonUniversalStatus :=
  notifications.filterMap (fun notif =>
    match notif.status with
    | some raw =>
      let status := mastodon_status_to_universal raw
      some { status with notification_id := some notif.id, id := notif.id }
    | none => none)

/-- `MastodonAccount.get_home_timeline` (src/platforms/mastodon/account.py:69):
the body has no `try/except`, so a backend error propagates to the caller and
nothing is reported.  On success the raw statuses are converted.  (The
user-cache insertion loop is the `add_user` operation modelled above.) -/
def mastodon_get_home_timeline
    (backend : Except MastodonError (List MastodonRawStatus)) :
    Except MastodonError (List MastodonUniversalStatus) × List ErrorReport :=
  match backend with
  | .ok statuses => (.ok (statuses.map mastodon_status_to_universal), [])
  | .error e => (.error e, [])

/-- `MastodonAccount.boost` (src/platforms/mastodon/account.py:233):
`try: ... return True / except MastodonError: return False` — the error is
caught, `False` is returned, and no reporter is invoked. -/
def mastodon_boost (backend : Except MastodonError Unit) : Bool × List ErrorReport :=
  match backend with
  | .ok _ => (true, [])
  | .error _ => (false, [])

end MastodonAdapter

section BlueskyAdapter

/-! ## Bluesky adapter (src/platforms/bluesky/account.py) -/

/-- The adapter's per-instance cursor dictionary `self._cursors`
(timeline key → stored cursor). -/
def CursorMap : Type := String → Option String

/-- `BlueskyAccount._store_cursor` (src/platforms/bluesky/account.py:49):
`if cursor: self._cursors[timeline_type] = cursor` — only a truthy cursor is
stored; `None`/empty leaves the map unchanged. -/
def store_cursor (cursors : CursorMap) (timeline_type : String)
    (cursor : Option String) : CursorMap :=
  if pyTruthy cursor then
    fun k => if k = timeline_type then cursor else cursors k
  else cursors

/-- `BlueskyAccount._get_cursor` (src/platforms/bluesky/account.py:54). -/
def get_cursor (cursors : CursorMap) (timeline_type : String) : Option String :=
  cursors timeline_type

/-- The parameter dict sent to `client.get_timeline` by `get_home_timeline`
(lines 93-99). -/
structure TimelineParams where
  limit : Nat
  cursor : Option String
deriving DecidableEq, Repr

/-- The attributes of the backend's timeline response read by
`get_home_timeline`: `response.cursor` (read via `getattr` with default
`None`) and `response.feed`. -/
structure TimelineResponse where
  cursor : Option String
  feed : List PostPayload

/-- The request-parameter construction of `get_home_timeline` (lines 93-99):
a pagination request (`max_id` truthy) without an explicit cursor substitutes
the stored cursor for key `home`; the cursor is put into the params only when
truthy. -/
def home_request_params (cursors : CursorMap) (limit : Nat)
    (cursor maxId : Option String) : TimelineParams :=
  let cursor := if pyTruthy maxId && !(pyTruthy cursor) then get_cursor cursors "home" else cursor
  { limit := min limit 100
  , cursor := if pyTruthy cursor then cursor else none }

/-- `BlueskyAccount._convert_feed_posts` (src/platforms/bluesky/account.py:58).
(The user-cache insertion it also performs is the `add_user` operation
modelled above.) -/
def convert_feed_posts (feed : List PostPayload) : List UniversalStatus :=
  feed.filterMap (fun item => bluesky_post_to_universal (some item) none)

/-- The observable outcome of one `get_home_timeline` call: the request
parameters sent to the backend, the returned statuses, the cursor state after
the call, and the reporter calls made. -/
structure HomeTimelineOutcome where
  request : TimelineParams
  statuses : List UniversalStatus
  cursors : CursorMap
  reports : List ErrorReport

/-- `BlueskyAccount.get_home_timeline` (src/platforms/bluesky/account.py:90).
On success the returned cursor is passed to `_store_cursor` and the feed is
converted; an `AtProtocolError`/`InvokeTimeoutError` is reported under the
label `home timeline` and yields `[]`; any other exception is reported under
the same label (with a special message for validation errors, truncating
`str(e)` to 100 characters) and yields `[]`.  The cursor state is only
updated on success. -/
def bluesky_get_home_timeline (cursors : CursorMap) (limit : Nat)
    (cursor maxId : Option String)
    (backend : TimelineParams → Except BlueskyError TimelineResponse) :
    HomeTimelineOutcome :=
  let params := home_request_params cursors limit cursor maxId
  match backend params with
  | .ok response =>
    { request := params
    , statuses := convert_feed_posts response.feed
    , cursors := store_cursor cursors "home" response.cursor
    , reports := [] }
  | .error (.protocolError msg) =>
    { request := params
    , statuses := []
    , cursors := cursors
    , reports := [{ message := msg, operation := "home timeline" }] }
  | .error (.otherError msg) =>
    { request := params
    , statuses := []
    , cursors := cursors
    , reports :=
        [{ message :=
             if strContains (pyLower msg) "validation error" then
               "API response parsing error (try refreshing): " ++ msg.take 100
             else msg
         , operation := "home timeline" }] }

/-- `BlueskyAccount.boost` (src/platforms/bluesky/account.py:521): fetch the
post (to obtain its CID), then repost; an `AtProtocolError`/
`InvokeTimeoutError` from either call is reported under the label `repost`
and yields `False`; an empty posts response yields `False` without a report;
other exceptions are not caught and propagate. -/
def bluesky_boost (getPosts : Except BlueskyError (List PostPayload))
    (repostCall : Except BlueskyError Unit) :
    Except BlueskyError Bool × List ErrorReport :=
  match getPosts with
  | .ok [] => (.ok false, [])
  | .ok (_ :: _) =>
    match repostCall with
    | .ok _ => (.ok true, [])
    | .error (.protocolError m) => (.ok false, [{ message := m, operation := "repost" }])
    | .error (.otherError m) => (.error (.otherError m), [])
  | .error (.protocolError m) => (.ok false, [{ message := m, operation := "repost" }])
  | .error (.otherError m) => (.error (.otherError m), [])

end BlueskyAdapter

section ThreadContext

/-! ## Thread context assembly (`BlueskyAccount.get_status_context`,
src/platforms/bluesky/account.py:396) -/

/-- A node of the backend's thread response: its post view, its parent link
and its direct replies (each read via `getattr` with defaults). -/
inductive ThreadNode where
  | mk (post : Option PostPayload) (parent : Option ThreadNode)
       (replies : List ThreadNode)

def ThreadNode.post : ThreadNode → Option PostPayload
  | .mk p _ _ => p

def ThreadNode.parent : ThreadNode → Option ThreadNode
  | .mk _ p _ => p

def ThreadNode.replies : ThreadNode → List ThreadNode
  | .mk _ _ r => r

/-- The `while parent:` ancestor walk of `get_status_context` (lines
408-415): convert each parent's post and insert it at the front of the
accumulated ancestors list, then move to the next parent.  `acc` is the
ancestors list accumulated so far. -/
def collect_ancestors : Option ThreadNode → List UniversalStatus → List UniversalStatus
  | none, acc => acc
  | some (.mk post parent _), acc =>
    let acc := match post with
      | some p => bluesky_post_to_universal_core p none :: acc
      | none => acc
    collect_ancestors parent acc

/-- The result of `get_status_context`. -/
structure ThreadContextResult where
  ancestors : List UniversalStatus
  descendants : List UniversalStatus

/-- The thread-assembly part of `BlueskyAccount.get_status_context` (lines
405-426): ancestors from the parent chain, descendants from the direct
replies only.  (The surrounding `try/except` reports and returns two empty
lists on transport failure, following the same pattern as
`bluesky_get_home_timeline`.) -/
def get_status_context_core (thread : ThreadNode) : ThreadContextResult :=
  match thread with
  | .mk _ parent replies =>
    { ancestors := collect_ancestors parent []
    , descendants := replies.filterMap (fun reply =>
        match reply.post with
        | some p => some (bluesky_post_to_universal_core p none)
        | none => none) }

end ThreadContext

section WitnessData

/-! ## Concrete sample data used by witnesses -/

/-- A minimal concrete status (only its id is ever inspected). -/
def sampleStatus (i : String) : UniversalStatus :=
  UniversalStatus.mk i none "" "" .now 0 0 0 none none none [] [] none none none none
    none none "mastodon"

/-- A minimal concrete user with a given id and acct. -/
def sampleUser (i acct : String) : UniversalUser :=
  { id := i, acct := acct, username := acct, display_name := "", note := ""
  , avatar := none, header := none, followers_count := 0, following_count := 0
  , statuses_count := 0, created_at := none, url := none, bot := false
  , locked := false, platform_data := none, platform := "mastodon" }

end WitnessData

/-! ## Claims -/

/-- **C10.**  For every deleted-status event with id `x` applied by the
live-update merger's `on_delete`: the merger treats every open timeline
independently (`on_delete` maps the single-timeline scan over all
timelines); a timeline containing no entry with id `x` is left entirely
unchanged; and a timeline of the form `pre ++ s :: suf` whose first entry
with id `x` is `s` loses exactly that entry, the relative order of all
remaining entries (`pre ++ suf`) being unchanged. -/
theorem c10_delete_frame :
    (∀ (x : String) (tls : List (List UniversalStatus)),
      on_delete x tls = tls.map (delete_first_by_id x)) ∧
    (∀ (x : String) (tl : List UniversalStatus),
      (∀ s ∈ tl, s.id ≠ x) → delete_first_by_id x tl = tl) ∧
    (∀ (x : String) (pre : List UniversalStatus) (s : UniversalStatus)
        (suf : List UniversalStatus),
      s.id = x → (∀ t ∈ pre, t.id ≠ x) →
      delete_first_by_id x (pre ++ s :: suf) = pre ++ suf) := by
  refine ⟨fun _ _ => rfl, ?_, ?_⟩
  · intro x tl h
    induction tl with
    | nil => rfl
    | cons s rest ih =>
      have hs : s.id ≠ x := h s (List.mem_cons_self s rest)
      simp [delete_first_by_id, hs,
        ih (fun t ht => h t (List.mem_cons_of_mem s ht))]
  · intro x pre s suf hs hpre
    induction pre with
    | nil => simp [delete_first_by_id, hs]
    | cons t rest ih =>
      have ht : t.id ≠ x := hpre t (List.mem_cons_self t rest)
      simp [delete_first_by_id, ht,
        ih (fun u hu => hpre u (List.mem_cons_of_mem t hu))]

/-- Witness for C10 at concrete timelines. -/
theorem c10_delete_frame_witness :
    delete_first_by_id "x" [sampleStatus "a"] = [sampleStatus "a"] ∧
    delete_first_by_id "x"
        ([sampleStatus "a"] ++ sampleStatus "x" :: [sampleStatus "b"]) =
      [sampleStatus "a"] ++ [sampleStatus "b"] :=
  ⟨c10_delete_frame.2.1 "x" [sampleStatus "a"] (by decide),
   c10_delete_frame.2.2 "x" [sampleStatus "a"] (sampleStatus "x") [sampleStatus "b"]
     (by decide) (by decide)⟩

/-- **C9.**  `lookup_by_name` normalizes the input (strip leading `@`,
lower-case) and scans the cache in order: if the first matching user (full
acct or acct local-part, lower-cased) is `u`, it returns `u` with the cache
unchanged; on a miss it invokes the recovery callback only when supplied,
inserts a successfully recovered user into the cache before returning it,
and otherwise returns not-found with the cache unchanged. -/
theorem c9_lookup_by_name :
    (∀ (users : List UniversalUser) (name : String)
        (cb : Option (String → Option UniversalUser)) (u : UniversalUser),
      users.find? (acct_matches (normalize_name name)) = some u →
      lookup_by_name users name cb = (some u, users)) ∧
    (∀ (users : List UniversalUser) (name : String)
        (f : String → Option UniversalUser) (u : UniversalUser),
      users.find? (acct_matches (normalize_name name)) = none →
      f (normalize_name name) = some u →
      lookup_by_name users name (some f) = (some u, add_user users (some u))) ∧
    (∀ (users : List UniversalUser) (name : String)
        (f : String → Option UniversalUser),
      users.find? (acct_matches (normalize_name name)) = none →
      f (normalize_name name) = none →
      lookup_by_name users name (some f) = (none, users)) ∧
    (∀ (users : List UniversalUser) (name : String),
      users.find? (acct_matches (normalize_name name)) = none →
      lookup_by_name users name none = (none, users)) := by
  refine ⟨?_, ?_, ?_, ?_⟩ <;> intro users name
  · intro cb u h
    simp [lookup_by_name, h]
  · intro f u h hf
    simp [lookup_by_name, h, hf]
  · intro f h hf
    simp [lookup_by_name, h, hf]
  · intro h
    simp [lookup_by_name, h]

/-- Witness for C9: a hit through the acct local-part after normalization of
`"@ALICE"`, and a callback-backed miss that inserts the recovered user. -/
theorem c9_lookup_by_name_witness :
    lookup_by_name [sampleUser "1" "Alice@example.com"] "@ALICE" none =
      (some (sampleUser "1" "Alice@example.com"),
       [sampleUser "1" "Alice@example.com"]) ∧
    lookup_by_name [sampleUser "1" "Alice@example.com"] "@bob"
        (some (fun nm => if nm = "bob" then some (sampleUser "2" "bob") else none)) =
      (some (sampleUser "2" "bob"),
       add_user [sampleUser "1" "Alice@example.com"] (some (sampleUser "2" "bob"))) :=
  ⟨c9_lookup_by_name.1 _ "@ALICE" none _ (by decide),
   c9_lookup_by_name.2.1 _ "@bob" _ _ (by decide) (by decide)⟩

/-- Filtering out an id that no list member has leaves the list unchanged. -/
theorem filter_id_eq_self (users : List UniversalUser) (uid : String)
    (h : ∀ v ∈ users, v.id ≠ uid) :
    users.filter (fun v => v.id ≠ uid) = users := by
  induction users with
  | nil => rfl
  | cons v rest ih =>
    have hv : (fun v : UniversalUser => decide (v.id ≠ uid)) v = true := by
      simp [h v (List.mem_cons_self v rest)]
    rw [List.filter_cons, if_pos hv,
      ih (fun u hu => h u (List.mem_cons_of_mem v hu))]

/-- On a list with pairwise-distinct ids containing `uid`, filtering `uid`
out removes exactly one element. -/
theorem filter_id_length (users : List UniversalUser) (uid : String)
    (hdist : users.Pairwise (fun a b => a.id ≠ b.id))
    (hmem : uid ∈ users.map UniversalUser.id) :
    (users.filter (fun v => v.id ≠ uid)).length + 1 = users.length := by
  induction users with
  | nil => simp at hmem
  | cons v rest ih =>
    rcases List.pairwise_cons.mp hdist with ⟨hv, hrest⟩
    by_cases hid : v.id = uid
    · have hall : ∀ u ∈ rest, u.id ≠ uid := by
        intro u hu e
        exact hv u hu (by rw [hid, e])
      rw [List.filter_cons, if_neg (by simp [hid]),
        filter_id_eq_self rest uid hall]
      simp
    · have hmem' : uid ∈ rest.map UniversalUser.id := by
        rcases List.mem_map.mp hmem with ⟨w, hw, hwid⟩
        rcases List.mem_cons.mp hw with rfl | hw'
        · exact absurd hwid hid
        · exact List.mem_map.mpr ⟨w, hw', hwid⟩
      have ihr := ih hrest hmem'
      rw [List.filter_cons, if_pos (by simp [hid])]
      simp only [List.length_cons]
      omega

/-- **C7.**  `add_user` preserves the cache invariants.  Part 1: inserting a
user whose id is already present (cache with pairwise-distinct ids, within
the bound) keeps the length, places the new entry at the front, and
preserves distinctness and the bound.  Part 2: inserting a fresh id into a
full cache (500 entries) evicts exactly the last entry: the result is the
new user in front of `users.dropLast`, still of length 500. -/
theorem c7_add_user_invariants :
    (∀ (users : List UniversalUser) (u : UniversalUser),
      users.Pairwise (fun a b => a.id ≠ b.id) →
      users.length ≤ MAX_CACHE_SIZE →
      u.id ∈ users.map UniversalUser.id →
      (add_user users (some u)).length = users.length ∧
      (add_user users (some u)).head? = some u ∧
      (add_user users (some u)).Pairwise (fun a b => a.id ≠ b.id) ∧
      (add_user users (some u)).length ≤ MAX_CACHE_SIZE) ∧
    (∀ (users : List UniversalUser) (u : UniversalUser),
      users.length = MAX_CACHE_SIZE →
      u.id ∉ users.map UniversalUser.id →
      add_user users (some u) = u :: users.dropLast ∧
      (add_user users (some u)).length = MAX_CACHE_SIZE) := by
  constructor
  · intro users u hdist hlen hmem
    have hflen := filter_id_length users u.id hdist hmem
    have hres : add_user users (some u) = u :: users.filter (fun v => v.id ≠ u.id) := by
      simp only [add_user]
      rw [if_neg]
      simp only [List.length_cons]
      omega
    refine ⟨?_, ?_, ?_, ?_⟩
    · rw [hres]; simp only [List.length_cons]; omega
    · rw [hres]; rfl
    · rw [hres]
      refine List.pairwise_cons.mpr ⟨?_, hdist.sublist (List.filter_sublist users)⟩
      intro b hb e
      have := (List.mem_filter.mp hb).2
      simp only [decide_eq_true_eq] at this
      exact this e.symm
    · rw [hres]; simp only [List.length_cons]; omega
  · intro users u hlen hnot
    have hfeq : users.filter (fun v => v.id ≠ u.id) = users := by
      refine filter_id_eq_self users u.id ?_
      intro v hv e
      exact hnot (by rw [← e]; exact List.mem_map_of_mem UniversalUser.id hv)
    have hres : add_user users (some u) = (u :: users).take MAX_CACHE_SIZE := by
      simp only [add_user, hfeq]
      rw [if_pos]
      simp only [List.length_cons]
      omega
    have htake : (u :: users).take MAX_CACHE_SIZE = u :: users.dropLast := by
      have h2 : users.length - 1 = 499 := by rw [hlen]; rfl
      rw [List.dropLast_eq_take, h2]
      have h1 : MAX_CACHE_SIZE = 499 + 1 := rfl
      rw [h1, List.take_succ_cons]
    constructor
    · rw [hres, htake]
    · rw [hres, htake]
      simp only [List.length_cons, List.length_dropLast, hlen]
      decide

/-- Ids used by the C7 witness: distinct by length. -/
def cacheId (n : Nat) : String := String.mk (List.replicate n 'a')

/-- The user with id `cacheId n` used by the C7 witness. -/
def cacheUser (n : Nat) : UniversalUser := sampleUser (cacheId n) ""

/-- A full 500-entry cache with pairwise-distinct ids. -/
def cacheUsers500 : List UniversalUser := (List.range MAX_CACHE_SIZE).map cacheUser

theorem cacheId_injective : Function.Injective cacheId := by
  intro i j h
  have := congrArg (fun s => s.data.length) h
  simpa [cacheId] using this

theorem cacheUsers500_length : cacheUsers500.length = MAX_CACHE_SIZE := by
  simp [cacheUsers500]

theorem cacheUsers500_pairwise :
    cacheUsers500.Pairwise (fun a b => a.id ≠ b.id) := by
  refine List.Pairwise.map cacheUser ?_ (List.pairwise_lt_range MAX_CACHE_SIZE)
  intro i j hij
  simpa [cacheUser, sampleUser] using fun e => absurd (cacheId_injective e) (Nat.ne_of_lt hij)

theorem cacheUsers500_ids :
    ∀ n, cacheId n ∈ cacheUsers500.map UniversalUser.id ↔ n < MAX_CACHE_SIZE := by
  intro n
  constructor
  · intro h
    rcases List.mem_map.mp h with ⟨v, hv, hvid⟩
    rcases List.mem_map.mp hv with ⟨i, hi, rfl⟩
    have : cacheId i = cacheId n := hvid
    rw [cacheId_injective this] at hi
    exact List.mem_range.mp hi
  · intro h
    exact List.mem_map.mpr ⟨cacheUser n,
      List.mem_map.mpr ⟨n, List.mem_range.mpr h, rfl⟩, rfl⟩

/-- Witness for C7: re-inserting a user carrying an already-present id
(`cacheId 3`) into the full 500-entry cache keeps length 500 and moves it to
the front; inserting a 501st distinct id evicts exactly the last entry. -/
theorem c7_add_user_invariants_witness :
    ((add_user cacheUsers500 (some (sampleUser (cacheId 3) "fresh"))).length =
        cacheUsers500.length ∧
      (add_user cacheUsers500 (some (sampleUser (cacheId 3) "fresh"))).head? =
        some (sampleUser (cacheId 3) "fresh")) ∧
    (add_user cacheUsers500 (some (cacheUser 500)) =
        cacheUser 500 :: cacheUsers500.dropLast ∧
      (add_user cacheUsers500 (some (cacheUser 500))).length = MAX_CACHE_SIZE) := by
  constructor
  · have h := c7_add_user_invariants.1 cacheUsers500 (sampleUser (cacheId 3) "fresh")
      cacheUsers500_pairwise (le_of_eq cacheUsers500_length)
      ((cacheUsers500_ids 3).mpr (by norm_num [MAX_CACHE_SIZE]))
    exact ⟨h.1, h.2.1⟩
  · exact c7_add_user_invariants.2 cacheUsers500 (cacheUser 500)
      cacheUsers500_length
      (fun h => by
        have := (cacheUsers500_ids 500).mp h
        simp [MAX_CACHE_SIZE] at this)

/-- **C3.**  For every mention notification with an embedded status, the
Mastodon adapter's `get_mentions` emits (in place, preserving the
surrounding list) a universal status whose id is overwritten with the
notification's id, whose `_notification_id` side channel also holds the
notification id, and which retains the raw backend status as its opaque
per-platform payload — so the original status id stays retrievable as
`st.platform_data.id`. -/
theorem c3_mentions_as_statuses :
    ∀ (pre post : List MastodonRawNotification) (n : MastodonRawNotification)
      (raw : MastodonRawStatus),
      n.status = some raw →
      ∃ st : MastodonUniversalStatus,
        mastodon_get_mentions (pre ++ n :: post) =
          mastodon_get_mentions pre ++ st :: mastodon_get_mentions post ∧
        st.id = n.id ∧
        st.notification_id = some n.id ∧
        st.platform_data = raw ∧
        st.platform_data.id = raw.id := by
  intro pre post n raw h
  refine ⟨{ id := n.id, content := raw.content, notification_id := some n.id
          , platform_data := raw, platform := "mastodon" }, ?_, rfl, rfl, rfl, rfl⟩
  simp [mastodon_get_mentions, List.filterMap_append, List.filterMap_cons, h,
    mastodon_status_to_universal]

/-- Witness for C3: notification `N123` wrapping status `S456`. -/
theorem c3_mentions_as_statuses_witness :
    ∃ st : MastodonUniversalStatus,
      mastodon_get_mentions ([] ++ (⟨"N123", some ⟨"S456", "hi"⟩⟩ : MastodonRawNotification) :: []) =
        mastodon_get_mentions [] ++ st :: mastodon_get_mentions [] ∧
      st.id = "N123" ∧
      st.notification_id = some "N123" ∧
      st.platform_data = (⟨"S456", "hi"⟩ : MastodonRawStatus) ∧
      st.platform_data.id = "S456" :=
  c3_mentions_as_statuses [] [] ⟨"N123", some ⟨"S456", "hi"⟩⟩ ⟨"S456", "hi"⟩ (by decide)

/-- The cursor state used by the C4 counterexample and the C5 witness: a
previously stored cursor `c1` under the key `home`. -/
def sampleCursors : CursorMap :=
  fun k => if k = "home" then some "c1" else none

/-- **C4 — counterexample.**  The claim says the cursor returned by a
successful call — *including an absent/None cursor* — is stored under the
key unconditionally, replacing the previous value.  Here a successful home
timeline call returns no cursor (end of feed), yet after the call the stored
cursor under `home` is still the old `c1`, not `none`: `_store_cursor`'s
`if cursor:` guard drops falsy cursors. -/
theorem c4_counterexample :
    (bluesky_get_home_timeline sampleCursors 40 none (some "999")
        (fun _ => Except.ok { cursor := none, feed := [] })).cursors "home" = some "c1" ∧
    some "c1" ≠ (none : Option String) := by
  constructor
  · rfl
  · simp

/-- **C4 — amended.**  After a successful call the returned cursor is passed
to `_store_cursor`, which stores it under the key *only when it is truthy*
(non-`None`, non-empty); a falsy returned cursor leaves the whole cursor map
— in particular the previously stored cursor — unchanged. -/
theorem c4_store_cursor_conditional :
    (∀ (cursors : CursorMap) (k : String) (c : Option String),
      pyTruthy c = true → store_cursor cursors k c k = c) ∧
    (∀ (cursors : CursorMap) (k : String) (c : Option String),
      pyTruthy c = false → store_cursor cursors k c = cursors) ∧
    (∀ (cursors : CursorMap) (limit : Nat) (cursor maxId : Option String)
        (resp : TimelineResponse),
      (bluesky_get_home_timeline cursors limit cursor maxId
          (fun _ => Except.ok resp)).cursors = store_cursor cursors "home" resp.cursor) := by
  refine ⟨?_, ?_, ?_⟩
  · intro cursors k c h
    simp [store_cursor, h]
  · intro cursors k c h
    simp [store_cursor, h]
  · intro cursors limit cursor maxId resp
    rfl

/-- Witness for C4 (amended): a truthy cursor overwrites the stored one, a
`None` cursor leaves the map unchanged, and a successful home-timeline call
defers to `_store_cursor`. -/
theorem c4_store_cursor_conditional_witness :
    store_cursor sampleCursors "home" (some "c2") "home" = some "c2" ∧
    store_cursor sampleCursors "home" none = sampleCursors ∧
    (bluesky_get_home_timeline sampleCursors 40 none none
        (fun _ => Except.ok { cursor := some "c2", feed := [] })).cursors =
      store_cursor sampleCursors "home" (some "c2") :=
  ⟨c4_store_cursor_conditional.1 sampleCursors "home" (some "c2") (by decide),
   c4_store_cursor_conditional.2.1 sampleCursors "home" none (by decide),
   c4_store_cursor_conditional.2.2 sampleCursors 40 none none
     { cursor := some "c2", feed := [] }⟩

/-- **C5.**  For the home timeline key: a continuation request (truthy
`max_id`, no explicit cursor) sends the stored cursor `C` as the request
cursor; a fresh request (neither `max_id` nor cursor) sends no cursor,
ignoring any stored value; the request actually handed to the backend is
exactly `home_request_params`; and `_store_cursor` maintains the invariant
that stored cursors are never the empty string (which discharges the
`C ≠ ""` hypothesis for every reachable state). -/
theorem c5_cursor_continuation :
    (∀ (cursors : CursorMap) (limit : Nat) (maxId : Option String) (C : String),
      pyTruthy maxId = true → cursors "home" = some C → C ≠ "" →
      (home_request_params cursors limit none maxId).cursor = some C) ∧
    (∀ (cursors : CursorMap) (limit : Nat),
      (home_request_params cursors limit none none).cursor = none) ∧
    (∀ (cursors : CursorMap) (limit : Nat) (cursor maxId : Option String)
        (backend : TimelineParams → Except BlueskyError TimelineResponse),
      (bluesky_get_home_timeline cursors limit cursor maxId backend).request =
        home_request_params cursors limit cursor maxId) ∧
    (∀ (cursors : CursorMap) (k : String) (c : Option String) (k2 : String),
      (∀ k3, cursors k3 ≠ some "") → store_cursor cursors k c k2 ≠ some "") := by
  refine ⟨?_, ?_, ?_, ?_⟩
  · intro cursors limit maxId C h1 h2 h3
    have hC : pyTruthy (some C) = true := by simp [pyTruthy, h3]
    have hn : pyTruthy none = false := rfl
    simp [home_request_params, get_cursor, h1, h2, hC, hn]
  · intro cursors limit
    rfl
  · intro cursors limit cursor maxId backend
    simp only [bluesky_get_home_timeline]
    split <;> rfl
  · intro cursors k c k2 hinv
    by_cases hc : pyTruthy c = true
    · simp only [store_cursor, hc, if_true]
      by_cases hk : k2 = k
      · simp only [hk, if_true]
        cases c with
        | none => simp [pyTruthy] at hc
        | some s =>
          simp only [pyTruthy, bne_iff_ne, ne_eq] at hc
          simp [hc]
      · simp [hk, hinv k2]
    · rw [store_cursor, if_neg hc]
      exact hinv k2

/-- Witness for C5: with stored cursor `c1` under `home`, a continuation
request (`max_id` supplied, no cursor) sends `c1`; a fresh request sends no
cursor; and the empty-string invariant holds after a store. -/
theorem c5_cursor_continuation_witness :
    (home_request_params sampleCursors 40 none (some "999")).cursor = some "c1" ∧
    (home_request_params sampleCursors 40 none none).cursor = none ∧
    store_cursor sampleCursors "home" (some "c2") "home" ≠ some "" :=
  ⟨c5_cursor_continuation.1 sampleCursors 40 (some "999") "c1" (by decide) (by decide)
      (by decide),
   c5_cursor_continuation.2.1 sampleCursors 40,
   c5_cursor_continuation.2.2.2 sampleCursors "home" (some "c2") "home"
     (by intro k3; simp [sampleCursors])⟩

/-- **C1 — counterexample.**  The claim says *no* adapter method lets a
transport exception propagate, and every failure is reported with an
operation label.  But `MastodonAccount.get_home_timeline` has no
`try/except`: a `MastodonError` from the backend propagates to the caller,
and nothing is reported. -/
theorem c1_counterexample :
    mastodon_get_home_timeline (Except.error ⟨"connection failed"⟩) =
      (Except.error ⟨"connection failed"⟩, ([] : List ErrorReport)) := rfl

/-- **C1 — amended.**  The uniform report-and-return-empty policy holds only
for the Bluesky adapter: its methods report a transport error
(`AtProtocolError`/`InvokeTimeoutError`) to the shared reporter with an
operation label and return the empty/false result, leaving state unchanged.
The Mastodon adapter's timeline methods propagate transport exceptions
without reporting, and its action methods (e.g. `boost`) swallow
`MastodonError` into `False` without reporting. -/
theorem c1_error_policy :
    (∀ e, mastodon_get_home_timeline (Except.error e) = (Except.error e, [])) ∧
    (∀ e, mastodon_boost (Except.error e) = (false, [])) ∧
    (∀ (cursors : CursorMap) (limit : Nat) (cursor maxId : Option String) (msg : String),
      bluesky_get_home_timeline cursors limit cursor maxId
          (fun _ => Except.error (BlueskyError.protocolError msg)) =
        { request := home_request_params cursors limit cursor maxId
        , statuses := []
        , cursors := cursors
        , reports := [{ message := msg, operation := "home timeline" }] }) ∧
    (∀ (rc : Except BlueskyError Unit) (msg : String),
      bluesky_boost (Except.error (BlueskyError.protocolError msg)) rc =
        (Except.ok false, [{ message := msg, operation := "repost" }])) ∧
    (∀ (p : PostPayload) (rest : List PostPayload) (msg : String),
      bluesky_boost (Except.ok (p :: rest))
          (Except.error (BlueskyError.protocolError msg)) =
        (Except.ok false, [{ message := msg, operation := "repost" }])) :=
  ⟨fun _ => rfl, fun _ => rfl, fun _ _ _ _ _ => rfl, fun _ _ => rfl, fun _ _ _ => rfl⟩

/-- A linked parent chain, listed from the immediate parent upward to the
root, as a thread-node chain. -/
def chain_of : List PostPayload → Option ThreadNode
  | [] => none
  | p :: rest => some (.mk (some p) (chain_of rest) [])

/-- Replace a direct reply's own subtree and parent pointer, keeping its
post: used to state that descendants never look below one level. -/
def prune_reply : ThreadNode → ThreadNode
  | .mk post _ _ => .mk post none []

theorem prune_reply_post (r : ThreadNode) : (prune_reply r).post = r.post := by
  cases r; rfl

/-- The ancestor walk reverses the upward chain in front of the
accumulator. -/
theorem collect_ancestors_chain_of (l : List PostPayload) (acc : List UniversalStatus) :
    collect_ancestors (chain_of l) acc =
      (l.map (fun p => bluesky_post_to_universal_core p none)).reverse ++ acc := by
  induction l generalizing acc with
  | nil => simp [chain_of, collect_ancestors]
  | cons p rest ih =>
    simp [chain_of, collect_ancestors, ih]

/-- **C8.**  `get_status_context`: for a thread whose upward parent chain is
`chain = [parent, grandparent, …, root]`, the ancestors list is the reversed
chain — root first, immediate parent last, i.e. oldest-first; the
descendants list is the converted direct replies only; and it is invariant
under replacing each direct reply's deeper structure (its own replies and
parent pointer), i.e. no deeper descendant is ever taken. -/
theorem c8_thread_context :
    (∀ (p0 : Option PostPayload) (chain : List PostPayload) (replies : List ThreadNode),
      (get_status_context_core (.mk p0 (chain_of chain) replies)).ancestors =
        (chain.map (fun p => bluesky_post_to_universal_core p none)).reverse) ∧
    (∀ (p0 : Option PostPayload) (parent : Option ThreadNode) (replies : List ThreadNode),
      (get_status_context_core (.mk p0 parent replies)).descendants =
        replies.filterMap (fun r =>
          r.post.map (fun p => bluesky_post_to_universal_core p none))) ∧
    (∀ (p0 : Option PostPayload) (parent : Option ThreadNode) (replies : List ThreadNode),
      (get_status_context_core (.mk p0 parent (replies.map prune_reply))).descendants =
        (get_status_context_core (.mk p0 parent replies)).descendants) := by
  refine ⟨?_, ?_, ?_⟩
  · intro p0 chain replies
    simp [get_status_context_core, collect_ancestors_chain_of]
  · intro p0 parent replies
    simp only [get_status_context_core]
    refine List.filterMap_congr ?_
    intro r _
    cases hr : r.post <;> rfl
  · intro p0 parent replies
    simp only [get_status_context_core, List.filterMap_map]
    refine List.filterMap_congr ?_
    intro r _
    simp [Function.comp, prune_reply_post]

/-- Concrete reposter profile for C2: carries a bio, a follower count and an
avatar, so the inline synthesis is distinguishable from the full profile
conversion. -/
def c2_reposter : ProfilePayload :=
  ⟨some "did:plc:rep", some "rep.bsky.social", some "Rep Name", some "my bio",
   some "avatar-url", none, some 5, none, none⟩

/-- Concrete original author for C2. -/
def c2_orig_author : ProfilePayload :=
  ⟨some "did:plc:orig", some "orig.bsky.social", some "Orig", none, none, none,
   none, none, none⟩

/-- Concrete original post record for C2. -/
def c2_record : RecordPayload :=
  ⟨some "hello world", some "2024-01-02T03:04:05Z", none, none, none⟩

/-- Concrete original post (a plain `PostView`) for C2. -/
def c2_orig_post : PostPayload :=
  .mk none none (some c2_record) (some "at://did:plc:orig/app.bsky.feed.post/abc")
    (some "cid1") none (some c2_orig_author) (some 3) (some 1) (some 2) none none

/-- Concrete repost reason for C2. -/
def c2_reason : ReasonPayload :=
  ⟨"app.bsky.feed.defs#reasonRepost", some c2_reposter, some "2024-02-02T00:00:00Z"⟩

/-- Concrete repost feed item (wrapper) for C2. -/
def c2_wrapper : PostPayload :=
  .mk (some c2_orig_post) (some c2_reason) none none none none none none none none
    none none

/-- **C2 — counterexample.**  The claim says the synthesized status's
`account` equals the *converted* reposter (`bluesky_profile_to_universal` of
`U_repost`).  It does not: the repost branch builds the account inline,
zeroing the bio and the counts (here the converted reposter has
`note = "my bio"` and `followers_count = 5`, the synthesized account has
`note = ""` and `followers_count = 0`). -/
theorem c2_counterexample :
    (bluesky_post_to_universal_core c2_wrapper none).account ≠
      bluesky_profile_to_universal (some c2_reposter) := by
  have hr : isRepostReason c2_reason = true := by decide
  have hacc : (bluesky_post_to_universal_core c2_wrapper none).account =
      some (reposter_user_of c2_reason) := by
    simp only [c2_wrapper]
    rw [bluesky_post_to_universal_core]
    simp [hr, UniversalStatus.account]
  rw [hacc]
  decide

/-- **C2 — amended.**  For a feed item carrying a repost reason around an
inner post `P`: the conversion returns a wrapper status whose `account` is a
user synthesized inline from the reposter's identity, whose `reblog` is the
recursively converted `P`, and whose own content fields are all empty (the
wrapper id is `P`'s URI suffixed `:repost`, its timestamp the repost time).
A plain `PostView` converts with `id` = its URI and `account` = its
converted author (so `reblog.id = P.uri` and `reblog.account` = converted
`U_orig`).  The synthesized account carries the reposter's did, handle,
display name and avatar but an empty bio and zero counts — it is not the
full profile conversion; when the reposter is absent, it is an `unknown`
placeholder rather than `None`. -/
theorem c2_repost_synthesis :
    (∀ (ip : PostPayload) (r : ReasonPayload) (w3 : Option RecordPayload)
        (w4 w5 w6 : Option String) (w7 : Option ProfilePayload)
        (w8 w9 w10 : Option Nat) (w11 : Option String) (w12 : Option EmbedPayload),
      isRepostReason r = true →
      bluesky_post_to_universal_core
          (.mk (some ip) (some r) w3 w4 w5 w6 w7 w8 w9 w10 w11 w12) none =
        UniversalStatus.mk (ip.uri.getD "" ++ ":repost") (some (reposter_user_of r))
          "" "" (parse_bluesky_datetime (r.indexedAt.getD "")) 0 0 0 none
          (some (bluesky_post_to_universal_core ip none)) none [] [] none none none
          none none
          (some (.mk (some ip) (some r) w3 w4 w5 w6 w7 w8 w9 w10 w11 w12))
          "bluesky") ∧
    (∀ (i2 : Option ReasonPayload) (rec0 : Option RecordPayload)
        (uri cid text : Option String) (author0 : Option ProfilePayload)
        (lc rc pc : Option Nat) (ia : Option String) (embed : Option EmbedPayload),
      (bluesky_post_to_universal_core
          (.mk none i2 rec0 uri cid text author0 lc rc pc ia embed) none).id =
        uri.getD "" ∧
      (bluesky_post_to_universal_core
          (.mk none i2 rec0 uri cid text author0 lc rc pc ia embed) none).account =
        bluesky_profile_to_universal author0) ∧
    (∀ (rp : ProfilePayload) (t : String) (ia : Option String) (dd hh : String),
      rp.did = some dd → dd ≠ "" → rp.handle = some hh → hh ≠ "" →
      (reposter_user_of ⟨t, some rp, ia⟩).id = dd ∧
      (reposter_user_of ⟨t, some rp, ia⟩).acct = hh ∧
      (reposter_user_of ⟨t, some rp, ia⟩).avatar = rp.avatar ∧
      (reposter_user_of ⟨t, some rp, ia⟩).note = "" ∧
      (reposter_user_of ⟨t, some rp, ia⟩).followers_count = 0) ∧
    (∀ (t : String) (ia : Option String),
      reposter_user_of ⟨t, none, ia⟩ =
        { id := "unknown", acct := "unknown", username := "unknown"
        , display_name := "[NO_BY:" ++ t ++ "]", note := "", avatar := none
        , header := none, followers_count := 0, following_count := 0
        , statuses_count := 0, created_at := none, url := none, bot := false
        , locked := false, platform_data := none, platform := "bluesky" }) := by
  refine ⟨?_, ?_, ?_, ?_⟩
  · intro ip r w3 w4 w5 w6 w7 w8 w9 w10 w11 w12 hr
    rw [bluesky_post_to_universal_core]
    simp [hr]
  · intro i2 rec0 uri cid text author0 lc rc pc ia embed
    constructor
    · rw [bluesky_post_to_universal_core]
      cases i2 <;> simp [bluesky_post_view_to_universal, UniversalStatus.id]
    · rw [bluesky_post_to_universal_core]
      cases i2 <;>
        simp [bluesky_post_view_to_universal, UniversalStatus.account, author_or_none]
  · intro rp t ia dd hh hdd hdne hhh hhne
    simp [reposter_user_of, hdd, hdne, hhh, hhne]
  · intro t ia
    rfl

/-- Witness for C2: the concrete repost wrapper `c2_wrapper` converts to a
boost-shaped status (reposter account, recursively converted original as
`reblog`, empty own content), and the synthesized account carries the
reposter identity with zeroed bio/counts. -/
theorem c2_repost_synthesis_witness :
    (isRepostReason c2_reason = true ∧
      bluesky_post_to_universal_core c2_wrapper none =
        UniversalStatus.mk (c2_orig_post.uri.getD "" ++ ":repost")
          (some (reposter_user_of c2_reason)) "" ""
          (parse_bluesky_datetime (c2_reason.indexedAt.getD "")) 0 0 0 none
          (some (bluesky_post_to_universal_core c2_orig_post none)) none [] []
          none none none none none (some c2_wrapper) "bluesky") ∧
    ((reposter_user_of c2_reason).id = "did:plc:rep" ∧
      (reposter_user_of c2_reason).acct = "rep.bsky.social" ∧
      (reposter_user_of c2_reason).avatar = c2_reposter.avatar ∧
      (reposter_user_of c2_reason).note = "" ∧
      (reposter_user_of c2_reason).followers_count = 0) :=
  ⟨⟨by decide,
    c2_repost_synthesis.1 c2_orig_post c2_reason none none none none none none
      none none none none (by decide)⟩,
   c2_repost_synthesis.2.2.1 c2_reposter "app.bsky.feed.defs#reasonRepost"
     (some "2024-02-02T00:00:00Z") "did:plc:rep" "rep.bsky.social"
     (by decide) (by decide) (by decide) (by decide)⟩

/-- **C6 — counterexample.**  The claim says every non-null conversion result
has all required fields populated with type-appropriate defaults.  On a
fully-absent payload the conversion does return a status (non-null), but its
`account` — a required field of the data model, whose nullable fields are
marked explicitly and do not include it — is left `None` rather than being
filled with any placeholder. -/
theorem c6_counterexample :
    (bluesky_post_to_universal (some PostPayload.empty) none).isSome = true ∧
    (bluesky_post_to_universal_core PostPayload.empty none).account = none := by
  refine ⟨rfl, ?_⟩
  rw [PostPayload.empty, bluesky_post_to_universal_core]
  simp [bluesky_post_view_to_universal, UniversalStatus.account,
    bluesky_profile_to_universal, author_or, quoted_record_of]

/-- **C6 — amended.**  The three conversion functions are total — they
return a value (never raise) on every payload, however partial, and a
non-`None` input always yields a non-`None` result; missing string, count
and timestamp fields are filled with the type-appropriate defaults (empty
string, zero, current time), as the fully-absent payloads show.  However the
`account` field is left `None` (no placeholder) when the payload carries no
author identity. -/
theorem c6_conversion_totality :
    (∀ (p : PostPayload) (a : Option ProfilePayload),
      (bluesky_post_to_universal (some p) a).isSome = true) ∧
    (∀ pr : ProfilePayload, (bluesky_profile_to_universal (some pr)).isSome = true) ∧
    (∀ n : NotificationPayload,
      (bluesky_notification_to_universal (some n)).isSome = true) ∧
    (bluesky_post_to_universal_core PostPayload.empty none =
      UniversalStatus.mk "" none "" "" .now 0 0 0 none none none [] [] none none
        none none none (some PostPayload.empty) "bluesky") ∧
    (bluesky_profile_to_universal_core ProfilePayload.empty =
      { id := "", acct := "", username := "", display_name := "", note := ""
      , avatar := none, header := none, followers_count := 0, following_count := 0
      , statuses_count := 0, created_at := none
      , url := some "https://bsky.app/profile/", bot := false, locked := false
      , platform_data := some ProfilePayload.empty, platform := "bluesky" }) := by
  refine ⟨fun _ _ => rfl, fun _ => rfl, fun _ => rfl, ?_, ?_⟩
  · rw [PostPayload.empty, bluesky_post_to_universal_core]
    simp [bluesky_post_view_to_universal, bluesky_profile_to_universal,
      extract_media_from_embed, extract_rkey_from_uri, parse_bluesky_datetime,
      extract_mentions_from_facets, author_or, quoted_record_of, view_text,
      record_text, view_created_at_string, record_created_at, reply_parent_uri,
      record_mentions, author_handle]
  · decide

end FastSM
